import Mathlib

/-!
Verification development for the Raytracer-Cube repository.

The repository contains two renderers:

* the interactive renderer in `src/main.rs` with `src/cube.rs` (its `vec3`,
  `ray_intersect` and albedo-`Material` modules are referenced by `main.rs`
  but are not present under `src/`; they are modelled from the spec and from
  every use site in `main.rs`/`cube.rs`), and
* the "clean" renderer spread over `src/raytracer.rs`, `src/geometry.rs`,
  `src/scene.rs`, `src/material.rs`, `src/light.rs` and `src/ray.rs`.

Floating point (`f32`) is shallowly embedded as `ℚ`.  `f32::sqrt` is
modelled by `ratSqrt`, which is exact on rationals that are squares of
rationals and an under-approximation elsewhere (just as `f32` itself only
approximates irrational square roots).  `f32::powf` is modelled by `fpow`,
exact for non-negative integer exponents (the only exponents the scene code
creates are integral specular exponents).  IEEE infinities produced by the
slab test's intentional division by zero are modelled by the three-valued
type `ERat`; the case analysis in `slab_entry`/`slab_exit`/`slab_t0` below
mirrors the IEEE outcomes (including Rust's NaN-ignoring `f32::min/max`)
for non-degenerate boxes.  Directions whose three components are all zero
are outside the model: the real code would produce NaNs for them, and the
spec's data model requires directions fed to the engine to be unit length.
-/

/-- Model of `f32::sqrt` on ℚ: exact whenever the argument is the square of a
rational (numerator and denominator both perfect squares), an approximation
otherwise; non-positive arguments map to 0. -/
def ratSqrt (q : ℚ) : ℚ :=
  if q ≤ 0 then 0 else (Nat.sqrt q.num.toNat : ℚ) / (Nat.sqrt q.den : ℚ)

/-- Model of `f32::powf`: exact for non-negative integer exponents
(`powf (b, 0) = 1`, matching Rust), 0 for the fractional exponents the
model never has to evaluate exactly. -/
def fpow (b e : ℚ) : ℚ :=
  if e.den = 1 ∧ 0 ≤ e.num then b ^ e.num.toNat else 0

/-- Model of `f32::clamp(lo, hi)` on one component. -/
def qclamp (x lo hi : ℚ) : ℚ :=
  if x < lo then lo else if x > hi then hi else x

/-- 3-component vector over the rational model of `f32`.
Modelled from the spec (§3 Vector3, §4.1): the concrete `vec3.rs` used by
`main.rs` is not under `src/`; operations are the standard componentwise
ones named at every use site of both renderers. -/
structure Vec3 where
  x : ℚ
  y : ℚ
  z : ℚ
deriving DecidableEq, Repr

namespace Vec3

def zero : Vec3 := ⟨0, 0, 0⟩

def add (a b : Vec3) : Vec3 := ⟨a.x + b.x, a.y + b.y, a.z + b.z⟩

def sub (a b : Vec3) : Vec3 := ⟨a.x - b.x, a.y - b.y, a.z - b.z⟩

def neg (a : Vec3) : Vec3 := ⟨-a.x, -a.y, -a.z⟩

/-- Componentwise product (`Vector3 * Vector3`). -/
def hadamard (a b : Vec3) : Vec3 := ⟨a.x * b.x, a.y * b.y, a.z * b.z⟩

/-- Scalar product (`Vector3 * f32`). -/
def scale (a : Vec3) (s : ℚ) : Vec3 := ⟨a.x * s, a.y * s, a.z * s⟩

def dot (a b : Vec3) : ℚ := a.x * b.x + a.y * b.y + a.z * b.z

def lengthSq (a : Vec3) : ℚ := dot a a

def length (a : Vec3) : ℚ := ratSqrt (lengthSq a)

/-- Model of `normalized()` / `normalize()`: scale by the inverse length;
the zero vector (undefined per spec §4.1, NaN in the real code) is returned
unchanged. -/
def normalize (a : Vec3) : Vec3 :=
  let len := length a
  if len = 0 then a else scale a len⁻¹

/-- `reflect(incident, normal) = incident - normal * 2 * dot(incident, normal)`
(spec §4.1; `reflect` in `main.rs` and `Vec3::reflect` used by
`raytracer.rs`). -/
def reflect (incident normal : Vec3) : Vec3 :=
  sub incident (scale normal (2 * dot incident normal))

/-- Componentwise `clamp` used by `calculate_lighting` in `raytracer.rs`. -/
def clamp (a : Vec3) (lo hi : ℚ) : Vec3 :=
  ⟨qclamp a.x lo hi, qclamp a.y lo hi, qclamp a.z lo hi⟩

instance : Add Vec3 := ⟨add⟩
instance : Sub Vec3 := ⟨sub⟩
instance : Neg Vec3 := ⟨neg⟩
instance : HMul Vec3 Vec3 Vec3 := ⟨hadamard⟩
instance : HMul Vec3 ℚ Vec3 := ⟨scale⟩

end Vec3

/-- `f32` values extended with the two IEEE infinities, used to model the
intermediate entry/exit times of the slab tests (which intentionally divide
by zero direction components) and the `f32::INFINITY` search windows. -/
inductive ERat where
  | ninf : ERat
  | fin : ℚ → ERat
  | pinf : ERat
deriving DecidableEq, Repr

namespace ERat

/-- Strict order on `ERat`, mirroring `f32` `<` on non-NaN values. -/
def blt : ERat → ERat → Bool
  | ninf, ninf => false
  | ninf, fin _ => true
  | ninf, pinf => true
  | fin _, ninf => false
  | fin a, fin b => decide (a < b)
  | fin _, pinf => true
  | pinf, _ => false

/-- `f32::min` on non-NaN values. -/
def emin (a b : ERat) : ERat := if blt a b then a else b

/-- `f32::max` on non-NaN values. -/
def emax (a b : ERat) : ERat := if blt a b then b else a

theorem blt_irrefl (a : ERat) : blt a a = false := by
  cases a <;> simp [blt]

theorem blt_trans {a b c : ERat} (h₁ : blt a b = true) (h₂ : blt b c = true) :
    blt a c = true := by
  cases a <;> cases b <;> cases c <;> simp_all [blt] <;> linarith

theorem blt_total (a b : ERat) : blt a b = true ∨ blt b a = true ∨ a = b := by
  cases a <;> cases b <;> simp_all [blt]
  rename_i p q
  rcases lt_trichotomy p q with h | h | h
  · exact Or.inl h
  · exact Or.inr (Or.inr h)
  · exact Or.inr (Or.inl h)

end ERat

/-! The interactive renderer: `src/main.rs` and `src/cube.rs`. -/

namespace RT

/-- Material of the interactive renderer.  Modelled from the spec (§3
Material: base color, specular exponent, four-component energy split
`[diffuse, specular, reflective, transmissive]`, refractive index): the
`material` module referenced by `main.rs` is not under `src/`; the fields
are exactly the ones `main.rs` reads (`material.specular`,
`material.albedo[0..3]`, `material.refractive_index`,
`get_diffuse_color`). -/
structure Material where
  diffuse : Vec3
  specular : ℚ
  albedo0 : ℚ
  albedo1 : ℚ
  albedo2 : ℚ
  albedo3 : ℚ
  refractive_index : ℚ
deriving DecidableEq, Repr

/-- `get_diffuse_color(u, v)`: texture sampling is commented out in this
renderer (`// mod texture` in `main.rs`), so the solid diffuse color is
returned for every `(u, v)`.  Modelled from the spec (§3 Material: "color
(solid, or a procedural rule ...)"). -/
def Material.get_diffuse_color (m : Material) (_u _v : ℚ) : Vec3 :=
  m.diffuse

/-- `Light` of `main.rs` (`src/light.rs` of this renderer is not under
`src/`; modelled from the spec §3 Light and the use sites: `position`,
raylib `Color` channels read as `color.r as f32 / 255.0`, `intensity`). -/
structure Light where
  position : Vec3
  colorR : ℕ
  colorG : ℕ
  colorB : ℕ
  intensity : ℚ
deriving DecidableEq, Repr

/-- Hit record of the interactive renderer.  Modelled from the spec (§3
HitRecord) and the use sites in `main.rs`/`cube.rs`: the `ray_intersect`
module is not under `src/`.  `Intersect::empty()` is the sentinel with
`is_intersecting = false`. -/
structure Intersect where
  is_intersecting : Bool
  distance : ℚ
  point : Vec3
  normal : Vec3
  material : Material
  u : ℚ
  v : ℚ
deriving DecidableEq, Repr

def Intersect.empty : Intersect :=
  ⟨false, 0, Vec3.zero, Vec3.zero, ⟨Vec3.zero, 0, 0, 0, 0, 0, 0⟩, 0, 0⟩

/-- `Cube` of `src/cube.rs`: center plus half side length. -/
structure Cube where
  center : Vec3
  size : ℚ
  material : Material
deriving DecidableEq, Repr

/-- Per-axis slab entry time `t1.min(t2)` of `Cube::ray_intersect`
(`cube.rs` lines 32-44), with `t1 = (lo - o) * (1/dc)` and
`t2 = (hi - o) * (1/dc)`.  For `dc = 0` the Rust code divides by zero on
purpose and relies on IEEE semantics; the three cases below are the IEEE
outcomes (`inv = +inf`; a NaN produced by an origin exactly on a slab plane
is ignored by Rust's `f32::min`/`f32::max`, which for `lo < hi` yields the
same entry/exit pair as the neighbouring non-NaN case). -/
def slab_entry (lo hi o dc : ℚ) : ERat :=
  if dc = 0 then
    if lo < o ∧ o < hi then ERat.ninf
    else if o ≤ lo then ERat.pinf
    else ERat.ninf
  else ERat.fin (min ((lo - o) / dc) ((hi - o) / dc))

/-- Per-axis slab exit time `t1.max(t2)` of `Cube::ray_intersect`; see
`slab_entry` for the `dc = 0` modelling. -/
def slab_exit (lo hi o dc : ℚ) : ERat :=
  if dc = 0 then
    if lo < o ∧ o < hi then ERat.pinf
    else if o ≤ lo then ERat.pinf
    else ERat.ninf
  else ERat.fin (max ((lo - o) / dc) ((hi - o) / dc))

/-- `tmin = tmin_x.max(tmin_y).max(tmin_z)` of `Cube::ray_intersect`. -/
def cube_tmin (c : Cube) (o d : Vec3) : ERat :=
  ERat.emax (ERat.emax
    (slab_entry (c.center.x - c.size) (c.center.x + c.size) o.x d.x)
    (slab_entry (c.center.y - c.size) (c.center.y + c.size) o.y d.y))
    (slab_entry (c.center.z - c.size) (c.center.z + c.size) o.z d.z)

/-- `tmax = tmax_x.min(tmax_y).min(tmax_z)` of `Cube::ray_intersect`. -/
def cube_tmax (c : Cube) (o d : Vec3) : ERat :=
  ERat.emin (ERat.emin
    (slab_exit (c.center.x - c.size) (c.center.x + c.size) o.x d.x)
    (slab_exit (c.center.y - c.size) (c.center.y + c.size) o.y d.y))
    (slab_exit (c.center.z - c.size) (c.center.z + c.size) o.z d.z)

/-- `let t = if tmin > 0.0 { tmin } else { tmax }` of `Cube::ray_intersect`. -/
def cube_t (c : Cube) (o d : Vec3) : ERat :=
  if ERat.blt (ERat.fin 0) (cube_tmin c o d) then cube_tmin c o d
  else cube_tmax c o d

/-- `Cube::calculate_normal` (`cube.rs` lines 74-105): outward axis normal
of the face whose coordinate of `point - center` has the largest absolute
value, ties broken x then y then z. -/
def Cube.calculate_normal (c : Cube) (point : Vec3) : Vec3 :=
  let relative := point - c.center
  let abs_x := |relative.x|
  let abs_y := |relative.y|
  let abs_z := |relative.z|
  if abs_x ≥ abs_y ∧ abs_x ≥ abs_z then
    if relative.x > 0 then ⟨1, 0, 0⟩ else ⟨-1, 0, 0⟩
  else if abs_y ≥ abs_x ∧ abs_y ≥ abs_z then
    if relative.y > 0 then ⟨0, 1, 0⟩ else ⟨0, -1, 0⟩
  else
    if relative.z > 0 then ⟨0, 0, 1⟩ else ⟨0, 0, -1⟩

/-- `Cube::calculate_uv` (`cube.rs` lines 107-136). -/
def Cube.calculate_uv (c : Cube) (point normal : Vec3) : ℚ × ℚ :=
  let relative := point - c.center
  let nx := relative.x / c.size
  let ny := relative.y / c.size
  let nz := relative.z / c.size
  if |normal.x| > 1/2 ∧ ¬(|normal.y| > 1/2) ∧ ¬(|normal.z| > 1/2) then
    ((nz + 1) * (1/2), (ny + 1) * (1/2))
  else if ¬(|normal.x| > 1/2) ∧ |normal.y| > 1/2 ∧ ¬(|normal.z| > 1/2) then
    ((nx + 1) * (1/2), (nz + 1) * (1/2))
  else if ¬(|normal.x| > 1/2) ∧ ¬(|normal.y| > 1/2) ∧ |normal.z| > 1/2 then
    ((nx + 1) * (1/2), (ny + 1) * (1/2))
  else (0, 0)

/-- `Cube::ray_intersect` (`cube.rs` lines 12-70): the axis-aligned slab
test.  A final entry/exit time that is still infinite can only arise for
the all-zero direction (NaN territory in the real code, outside the model);
it is mapped to a miss. -/
def Cube.ray_intersect (c : Cube) (ray_origin ray_direction : Vec3) : Intersect :=
  let tmin := cube_tmin c ray_origin ray_direction
  let tmax := cube_tmax c ray_origin ray_direction
  if ERat.blt tmax (ERat.fin 0) || ERat.blt tmax tmin then Intersect.empty
  else
    let t := cube_t c ray_origin ray_direction
    if !ERat.blt (ERat.fin 0) t then Intersect.empty
    else
      match t with
      | ERat.fin tq =>
        let point := ray_origin + ray_direction * tq
        let normal := c.calculate_normal point
        let uv := c.calculate_uv point normal
        ⟨true, tq, point, normal, c.material, uv.1, uv.2⟩
      | _ => Intersect.empty

/-- `const ORIGIN_BIAS: f32 = 1e-4` (`main.rs` line 20). -/
def ORIGIN_BIAS : ℚ := 1/10000

/-- `procedural_sky` (`main.rs` lines 22-45). -/
def procedural_sky (dir : Vec3) : Vec3 :=
  let d := dir.normalize
  let t := (d.y + 1) * (1/2)
  let green : Vec3 := ⟨1/2, 1/5, 1/5⟩
  let white : Vec3 := ⟨1/10, 1/20, 1/20⟩
  let blue : Vec3 := ⟨1/2, 1/5, 1/5⟩
  if t < 27/50 then
    let k := t / (11/20)
    green * (1 - k) + white * k
  else if t < 11/20 then white
  else if t < 4/5 then
    let k := (t - 11/20) / (1/4)
    white * (1 - k) + blue * k
  else blue

/-- `offset_origin` (`main.rs` lines 47-54). -/
def offset_origin (intersect : Intersect) (direction : Vec3) : Vec3 :=
  let offset := intersect.normal * ORIGIN_BIAS
  if direction.dot intersect.normal < 0 then intersect.point - offset
  else intersect.point + offset

/-- `reflect` (`main.rs` lines 56-58). -/
def reflect (incident normal : Vec3) : Vec3 :=
  incident - normal * (2 * incident.dot normal)

/-- The Snell discriminant `k = 1 - eta^2 * (1 - cosi^2)` computed by
`refract` (`main.rs` lines 60-100), after clamping the incidence cosine and
swapping the index ratio when exiting the medium. -/
def snell_k (incident normal : Vec3) (refractive_index : ℚ) : ℚ :=
  let cosi0 := min 1 (max (-1) (incident.dot normal))
  let cosi := if cosi0 > 0 then cosi0 else -cosi0
  let eta := if cosi0 > 0 then refractive_index / 1 else 1 / refractive_index
  1 - eta * eta * (1 - cosi * cosi)

/-- `refract` (`main.rs` lines 60-100): Snell refraction returning `None`
on total internal reflection. -/
def refract (incident normal : Vec3) (refractive_index : ℚ) : Option Vec3 :=
  let cosi0 := min 1 (max (-1) (incident.dot normal))
  let cosi := if cosi0 > 0 then cosi0 else -cosi0
  let eta := if cosi0 > 0 then refractive_index / 1 else 1 / refractive_index
  let n := if cosi0 > 0 then -normal else normal
  let k := 1 - eta * eta * (1 - cosi * cosi)
  if k < 0 then none
  else some (incident * eta + n * (eta * cosi - ratSqrt k))

/-- `cast_shadow` (`main.rs` lines 102-120): 1 if any object blocks the
biased probe ray strictly before the light, 0 otherwise. -/
def cast_shadow (intersect : Intersect) (light : Light) (objects : List Cube) : ℚ :=
  let light_dir := (light.position - intersect.point).normalize
  let light_distance := (light.position - intersect.point).length
  let shadow_ray_origin := offset_origin intersect light_dir
  if objects.any (fun object =>
      let shadow_intersect := object.ray_intersect shadow_ray_origin light_dir
      shadow_intersect.is_intersecting && decide (shadow_intersect.distance < light_distance))
  then 1 else 0

/-- The nearest-hit scan of `cast_ray` (`main.rs` lines 134-143): one step
of the z-buffered linear scan. -/
def scan_step (ray_origin ray_direction : Vec3) (acc : Intersect × ERat) (object : Cube) :
    Intersect × ERat :=
  let i := object.ray_intersect ray_origin ray_direction
  if i.is_intersecting && ERat.blt (ERat.fin i.distance) acc.2 then
    (i, ERat.fin i.distance)
  else acc

/-- The nearest-hit query of `cast_ray` (`main.rs` lines 134-143):
`zbuffer` starts at `f32::INFINITY` and shrinks to each accepted hit's
distance. -/
def nearest_intersect (objects : List Cube) (ray_origin ray_direction : Vec3) : Intersect :=
  (objects.foldl (scan_step ray_origin ray_direction) (Intersect.empty, ERat.pinf)).1

/-- The per-light Phong accumulation step of `cast_ray`
(`main.rs` lines 158-172), producing updated
`(total_diffuse, total_specular)`. -/
def light_step (objects : List Cube) (intersect : Intersect) (view_dir material_color : Vec3)
    (acc : Vec3 × Vec3) (light : Light) : Vec3 × Vec3 :=
  let light_dir := (light.position - intersect.point).normalize
  let reflect_dir := (reflect (-light_dir) intersect.normal).normalize
  let shadow_intensity := cast_shadow intersect light objects
  let light_intensity := light.intensity * (1 - shadow_intensity)
  let diffuse_intensity := max (intersect.normal.dot light_dir) 0 * light_intensity
  let light_color_v3 : Vec3 := ⟨(light.colorR : ℚ) / 255, (light.colorG : ℚ) / 255, (light.colorB : ℚ) / 255⟩
  let total_diffuse := acc.1 + material_color * diffuse_intensity * light_color_v3
  let specular_intensity :=
    fpow (max (view_dir.dot reflect_dir) 0) intersect.material.specular * light_intensity
  let total_specular := acc.2 + light_color_v3 * specular_intensity
  (total_diffuse, total_specular)

/-- The body of `cast_ray` (`main.rs` lines 122-208), written with an
explicit structural fuel so that unfolding is definitional.  The wrapper
`cast_ray` below instantiates `fuel = 4 - depth`; since the Rust guard
returns the sky for `depth > 3`, the fuel-exhausted case (reachable only
when `depth > 3`) returns the same sky color, and for `depth <= 3` the fuel
is positive, so this function computes exactly the Rust recursion. -/
def cast_ray_go (objects : List Cube) (lights : List Light) :
    ℕ → Vec3 → Vec3 → ℕ → Vec3
  | 0, _, ray_direction, _ => procedural_sky ray_direction
  | fuel + 1, ray_origin, ray_direction, depth =>
    if depth > 3 then procedural_sky ray_direction
    else
      let intersect := nearest_intersect objects ray_origin ray_direction
      if !intersect.is_intersecting then procedural_sky ray_direction
      else
        let view_dir := (ray_origin - intersect.point).normalize
        let material_color := intersect.material.get_diffuse_color intersect.u intersect.v
        let totals := lights.foldl (light_step objects intersect view_dir material_color)
          (Vec3.zero, Vec3.zero)
        let phong_color := totals.1 * intersect.material.albedo0 + totals.2 * intersect.material.albedo1
        let reflectivity := intersect.material.albedo2
        let reflect_color :=
          if reflectivity > 0 then
            let reflect_dir := (reflect ray_direction intersect.normal).normalize
            let reflect_origin := offset_origin intersect reflect_dir
            cast_ray_go objects lights fuel reflect_origin reflect_dir (depth + 1)
          else Vec3.zero
        let transparency := intersect.material.albedo3
        let refract_color :=
          if transparency > 0 then
            match refract ray_direction intersect.normal intersect.material.refractive_index with
            | some refract_dir =>
              let refract_origin := offset_origin intersect refract_dir
              cast_ray_go objects lights fuel refract_origin refract_dir (depth + 1)
            | none =>
              let reflect_dir := (reflect ray_direction intersect.normal).normalize
              let reflect_origin := offset_origin intersect reflect_dir
              cast_ray_go objects lights fuel reflect_origin reflect_dir (depth + 1)
          else Vec3.zero
        phong_color * (1 - reflectivity - transparency) +
          reflect_color * reflectivity + refract_color * transparency

/-- `cast_ray` (`main.rs` lines 122-208), the recursive trace function of
the interactive renderer: depth guard at the fixed cap 3, nearest hit,
Phong lighting with shadows, recursive reflection and refraction (with the
total-internal-reflection fallback) combined by the energy split. -/
def cast_ray (objects : List Cube) (lights : List Light)
    (ray_origin ray_direction : Vec3) (depth : ℕ) : Vec3 :=
  cast_ray_go objects lights (4 - depth) ray_origin ray_direction depth

/-- For `depth + 1` recursion levels the wrapper and the fuel agree:
unfolding `cast_ray` once yields the literal Rust body with `cast_ray`
itself at `depth + 1`. -/
theorem cast_ray_succ_fuel (objects : List Cube) (lights : List Light)
    (ray_origin ray_direction : Vec3) (depth : ℕ) (h : ¬ 3 < depth) :
    cast_ray objects lights ray_origin ray_direction depth =
      cast_ray_go objects lights ((4 - (depth + 1)) + 1) ray_origin ray_direction depth := by
  unfold cast_ray
  have h4 : 4 - depth = (4 - (depth + 1)) + 1 := by omega
  rw [h4]

/-- The claim-side local Phong term: diffuse and specular accumulated over
all lights, each weighted by the material's diffuse resp. specular energy
coefficient (spec §4.3 step 3). -/
def local_term (objects : List Cube) (lights : List Light)
    (intersect : Intersect) (ray_origin : Vec3) : Vec3 :=
  let view_dir := (ray_origin - intersect.point).normalize
  let material_color := intersect.material.get_diffuse_color intersect.u intersect.v
  let totals := lights.foldl (light_step objects intersect view_dir material_color)
    (Vec3.zero, Vec3.zero)
  totals.1 * intersect.material.albedo0 + totals.2 * intersect.material.albedo1

/-- The claim-side reflection contribution (spec §4.3 step 5): recursive
trace of the reflected, bias-offset ray when the reflective coefficient is
positive, zero otherwise. -/
def reflection_color (objects : List Cube) (lights : List Light)
    (intersect : Intersect) (ray_direction : Vec3) (depth : ℕ) : Vec3 :=
  if intersect.material.albedo2 > 0 then
    let reflect_dir := (reflect ray_direction intersect.normal).normalize
    let reflect_origin := offset_origin intersect reflect_dir
    cast_ray objects lights reflect_origin reflect_dir (depth + 1)
  else Vec3.zero

/-- The claim-side refraction contribution (spec §4.3 step 6): recursive
trace of the Snell-refracted ray, falling back to the reflection ray on
total internal reflection, zero for a non-transmissive material. -/
def refraction_color (objects : List Cube) (lights : List Light)
    (intersect : Intersect) (ray_direction : Vec3) (depth : ℕ) : Vec3 :=
  if intersect.material.albedo3 > 0 then
    match refract ray_direction intersect.normal intersect.material.refractive_index with
    | some refract_dir =>
      let refract_origin := offset_origin intersect refract_dir
      cast_ray objects lights refract_origin refract_dir (depth + 1)
    | none =>
      let reflect_dir := (reflect ray_direction intersect.normal).normalize
      let reflect_origin := offset_origin intersect reflect_dir
      cast_ray objects lights reflect_origin reflect_dir (depth + 1)
  else Vec3.zero

end RT

/-! The clean renderer: `src/geometry.rs`, `src/scene.rs`,
`src/material.rs`, `src/light.rs`, `src/ray.rs`, `src/raytracer.rs`. -/

namespace Clean

/-- `const EPSILON: f32 = 0.001` (`geometry.rs` line 7, `scene.rs` line 8). -/
def EPSILON : ℚ := 1/1000

/-- `TextureType` (`material.rs` lines 5-9). -/
inductive TextureType where
  | solidColor : TextureType
  | checkerboard : ℚ → Vec3 → Vec3 → TextureType
deriving DecidableEq, Repr

/-- `Material` (`material.rs` lines 11-19). -/
structure Material where
  color : Vec3
  texture : TextureType
  specular : ℚ
  roughness : ℚ
  reflectivity : ℚ
  emission : Vec3
deriving DecidableEq, Repr

/-- `Material::emitted` (`material.rs` lines 58-60). -/
def Material.emitted (m : Material) : Vec3 := m.emission

/-- `Material::get_color_at_point` (`material.rs` lines 62-77): solid color,
or the 3-D checkerboard keyed by the parity of the sum of the floored
scaled coordinates.  Rust's `% 2 == 0` on a possibly negative `i32` sum
agrees with evenness, as does Lean's `% 2 = 0` on `ℤ`. -/
def Material.get_color_at_point (m : Material) (point : Vec3) : Vec3 :=
  match m.texture with
  | TextureType.solidColor => m.color
  | TextureType.checkerboard scale color1 color2 =>
    let x_check : ℤ := ⌊point.x * scale⌋
    let y_check : ℤ := ⌊point.y * scale⌋
    let z_check : ℤ := ⌊point.z * scale⌋
    if (x_check + y_check + z_check) % 2 = 0 then color1 else color2

/-- `Ray` (`ray.rs` lines 5-9): plain record; `Ray::new` is the normalizing
smart constructor below. -/
structure Ray where
  origin : Vec3
  direction : Vec3
deriving DecidableEq, Repr

/-- `Ray::new` (`ray.rs` lines 12-17): normalizes the direction. -/
def Ray.new (origin direction : Vec3) : Ray :=
  ⟨origin, direction.normalize⟩

/-- `Ray::at` (`ray.rs` lines 20-22). -/
def Ray.at (r : Ray) (t : ℚ) : Vec3 :=
  r.origin + r.direction * t

/-- `HitRecord` (`geometry.rs` lines 9-15). -/
structure HitRecord where
  point : Vec3
  normal : Vec3
  t : ℚ
  material : Material
deriving DecidableEq, Repr

/-- `HitRecord::new` (`geometry.rs` lines 17-29): enforces the front-face
convention by flipping the geometric normal whenever it does not oppose the
ray direction. -/
def HitRecord.new (point normal : Vec3) (t : ℚ) (ray : Ray) (material : Material) :
    HitRecord :=
  let front_face := ray.direction.dot normal < 0
  let normal := if front_face then normal else -normal
  ⟨point, normal, t, material⟩

/-- `Cube` (`geometry.rs` lines 35-40): axis-aligned box given by min/max
corners. -/
structure Cube where
  min : Vec3
  max : Vec3
  material : Material
deriving DecidableEq, Repr

/-- `Cube::new` (`geometry.rs` lines 42-51). -/
def Cube.new (center size : Vec3) (material : Material) : Cube :=
  let half_size := size * (1/2 : ℚ)
  ⟨center - half_size, center + half_size, material⟩

/-- The pair `(t0, t1)` of one axis of `Cube::hit` (`geometry.rs` lines
85-91), after the `inv_dir < 0` swap.  `none` stands for the IEEE NaN
produced when `dc = 0` and the origin sits exactly on the slab plane; both
comparisons `t0 > t_min` and `t1 < t_max` are false on NaN, which the
consumers below reproduce. -/
def slab_t0 (lo hi o dc : ℚ) : Option ERat :=
  if dc = 0 then
    if lo - o > 0 then some ERat.pinf
    else if lo - o < 0 then some ERat.ninf
    else none
  else if dc < 0 then some (ERat.fin ((hi - o) / dc))
  else some (ERat.fin ((lo - o) / dc))

/-- See `slab_t0`; the exit counterpart. -/
def slab_t1 (lo hi o dc : ℚ) : Option ERat :=
  if dc = 0 then
    if hi - o > 0 then some ERat.pinf
    else if hi - o < 0 then some ERat.ninf
    else none
  else if dc < 0 then some (ERat.fin ((lo - o) / dc))
  else some (ERat.fin ((hi - o) / dc))

/-- The running state of `Cube::hit`: current window and the normal of the
entry face found so far. -/
structure SlabState where
  t_min : ERat
  t_max : ERat
  normal : Vec3
deriving DecidableEq, Repr

/-- One axis of the loop of `Cube::hit` (`geometry.rs` lines 60-110):
update the running entry time (remembering the face normal), the running
exit time, and fail when the window empties.  `axis_normal` is the normal
the Rust code writes when this axis provides the entry
(`1` if `inv_dir < 0` else `-1` on this axis). -/
def axis_step (t0 t1 : Option ERat) (axis_normal : Vec3) (st : SlabState) :
    Option SlabState :=
  let upd :=
    match t0 with
    | some v => if ERat.blt st.t_min v then (⟨v, st.t_max, axis_normal⟩ : SlabState) else st
    | none => st
  let upd2 :=
    match t1 with
    | some v => if ERat.blt v upd.t_max then (⟨upd.t_min, v, upd.normal⟩ : SlabState) else upd
    | none => upd
  if ERat.blt upd2.t_max upd2.t_min then none else some upd2

/-- The normal written for one axis (`geometry.rs` lines 96-100):
`if inv_dir < 0.0 { 1.0 } else { -1.0 }` on that axis; `inv_dir < 0` is
`dc < 0` (a zero `dc` gives `inv_dir = +inf`, not negative). -/
def axis_normal_x (dc : ℚ) : Vec3 := ⟨if dc < 0 then 1 else -1, 0, 0⟩

def axis_normal_y (dc : ℚ) : Vec3 := ⟨0, if dc < 0 then 1 else -1, 0⟩

def axis_normal_z (dc : ℚ) : Vec3 := ⟨0, 0, if dc < 0 then 1 else -1⟩

/-- `Cube::hit` (`geometry.rs` lines 53-122).  A final time that is still
infinite can only arise for degenerate directions (NaN territory in the
real code, outside the model); it is mapped to a miss. -/
def Cube.hit (c : Cube) (ray : Ray) (t_min t_max : ERat) : Option HitRecord :=
  let st0 : SlabState := ⟨t_min, t_max, Vec3.zero⟩
  let stx := axis_step (slab_t0 c.min.x c.max.x ray.origin.x ray.direction.x)
    (slab_t1 c.min.x c.max.x ray.origin.x ray.direction.x)
    (axis_normal_x ray.direction.x) st0
  match stx with
  | none => none
  | some st1 =>
    let sty := axis_step (slab_t0 c.min.y c.max.y ray.origin.y ray.direction.y)
      (slab_t1 c.min.y c.max.y ray.origin.y ray.direction.y)
      (axis_normal_y ray.direction.y) st1
    match sty with
    | none => none
    | some st2 =>
      let stz := axis_step (slab_t0 c.min.z c.max.z ray.origin.z ray.direction.z)
        (slab_t1 c.min.z c.max.z ray.origin.z ray.direction.z)
        (axis_normal_z ray.direction.z) st2
      match stz with
      | none => none
      | some st3 =>
        let t := if ERat.blt (ERat.fin EPSILON) st3.t_min then st3.t_min else st3.t_max
        if ERat.blt t (ERat.fin EPSILON) then none
        else
          match t with
          | ERat.fin tq => some (HitRecord.new (ray.at tq) st3.normal tq ray c.material)
          | _ => none

/-- `Plane` (`geometry.rs` lines 124-129). -/
structure Plane where
  point : Vec3
  normal : Vec3
  material : Material
deriving DecidableEq, Repr

/-- `Plane::new` (`geometry.rs` lines 131-139): normalizes the normal. -/
def Plane.new (point normal : Vec3) (material : Material) : Plane :=
  ⟨point, normal.normalize, material⟩

/-- `Plane::hit` (`geometry.rs` lines 141-158): parallel rays miss, the
single-plane solution is rejected outside the caller's window. -/
def Plane.hit (p : Plane) (ray : Ray) (t_min t_max : ERat) : Option HitRecord :=
  let denom := p.normal.dot ray.direction
  if |denom| < EPSILON then none
  else
    let t := (p.point - ray.origin).dot p.normal / denom
    if ERat.blt (ERat.fin t) t_min || ERat.blt t_max (ERat.fin t) then none
    else some (HitRecord.new (ray.at t) p.normal t ray p.material)

/-- The tagged union of primitives stored in a `HittableList`
(`Box<dyn Hittable>` holding either a `Cube` or a `Plane`). -/
inductive Object where
  | cube : Cube → Object
  | plane : Plane → Object
deriving DecidableEq, Repr

/-- Dispatch of the `Hittable` trait. -/
def Object.hit (obj : Object) (ray : Ray) (t_min t_max : ERat) : Option HitRecord :=
  match obj with
  | Object.cube c => c.hit ray t_min t_max
  | Object.plane p => p.hit ray t_min t_max

/-- `HittableList::hit` (`geometry.rs` lines 184-198): linear scan keeping
the latest accepted hit and narrowing the upper window bound to its `t`. -/
def HittableList.hit (objects : List Object) (ray : Ray) (t_min t_max : ERat) :
    Option HitRecord :=
  (objects.foldl (fun (acc : Option HitRecord × ERat) object =>
      match object.hit ray t_min acc.2 with
      | some hit_record => (some hit_record, ERat.fin hit_record.t)
      | none => acc) (none, t_max)).1

/-- `Light` (`light.rs` lines 5-10). -/
structure Light where
  position : Vec3
  color : Vec3
  intensity : ℚ
deriving DecidableEq, Repr

/-- `Light::get_direction_from` (`light.rs` lines 21-23). -/
def Light.get_direction_from (l : Light) (point : Vec3) : Vec3 :=
  (l.position - point).normalize

/-- `Light::get_effective_color` (`light.rs` lines 25-29): color scaled by
intensity and the `1 / (1 + 0.1 d + 0.01 d^2)` falloff. -/
def Light.get_effective_color (l : Light) (point : Vec3) : Vec3 :=
  let distance := (l.position - point).length
  let atten := 1 / (1 + (1/10) * distance + (1/100) * distance * distance)
  l.color * (l.intensity * atten)

/-- `Scene` (`scene.rs` lines 10-16). -/
structure Scene where
  objects : List Object
  lights : List Light
  background_color : Vec3
  ambient_light : Vec3
deriving DecidableEq, Repr

/-- `Scene::hit` (`scene.rs` lines 44-46). -/
def Scene.hit (s : Scene) (ray : Ray) (t_min t_max : ERat) : Option HitRecord :=
  HittableList.hit s.objects ray t_min t_max

/-- `Scene::get_background_color` (`scene.rs` lines 48-50): the stored
background color, ignoring the ray. -/
def Scene.get_background_color (s : Scene) (_ray : Ray) : Vec3 :=
  s.background_color

/-- `Scene::is_in_shadow` (`scene.rs` lines 52-62). -/
def Scene.is_in_shadow (s : Scene) (fromPoint toPoint : Vec3) : Bool :=
  let direction := toPoint - fromPoint
  let distance := direction.length
  let ray := Ray.new fromPoint direction.normalize
  (s.hit ray (ERat.fin EPSILON) (ERat.fin (distance - EPSILON))).isSome

/-- `Scene::get_lights_affecting_point` (`scene.rs` lines 64-78): every
light paired with its soft shadow factor (0.3 occluded, 1.0 clear). -/
def Scene.get_lights_affecting_point (s : Scene) (point : Vec3) : List (Light × ℚ) :=
  s.lights.map (fun light =>
    (light, if s.is_in_shadow point light.position then (3/10 : ℚ) else 1))

mutual

/-- `Raytracer::ray_color` (`raytracer.rs` lines 50-60): the recursive
trace function of the clean renderer; `depth` counts down and the
exhausted-depth guard returns black. -/
def ray_color (scene : Scene) (ray : Ray) (depth : ℤ) : Vec3 :=
  if h : depth ≤ 0 then Vec3.zero
  else
    match scene.hit ray (ERat.fin EPSILON) ERat.pinf with
    | some hit_record => calculate_lighting scene hit_record ray depth
    | none => scene.get_background_color ray
termination_by 2 * depth.toNat + 1
decreasing_by all_goals omega

/-- `Raytracer::calculate_lighting` (`raytracer.rs` lines 62-98): emission,
ambient, per-light diffuse and specular with soft shadows, one recursive
reflection bounce, clamped componentwise to `[0, 1]` before returning. -/
def calculate_lighting (scene : Scene) (hit : HitRecord) (incident_ray : Ray)
    (depth : ℤ) : Vec3 :=
  let material_color := hit.material.get_color_at_point hit.point
  let color0 := Vec3.zero + hit.material.emitted + scene.ambient_light * material_color
  let color1 := (scene.get_lights_affecting_point hit.point).foldl
    (fun (color : Vec3) (lp : Light × ℚ) =>
      let light := lp.1
      let shadow_factor := lp.2
      let light_dir := light.get_direction_from hit.point
      let light_color := light.get_effective_color hit.point
      let diffuse_strength := max (hit.normal.dot light_dir) 0
      let diffuse : Vec3 := material_color * light_color * diffuse_strength * shadow_factor
      let color := color + diffuse
      if hit.material.specular > 0 ∧ diffuse_strength > 0 then
        let view_dir := (-incident_ray.direction).normalize
        let reflect_dir := Vec3.reflect (-light_dir) hit.normal
        let spec_strength := fpow (max (view_dir.dot reflect_dir) 0)
          ((1 - hit.material.roughness) * 128)
        let specular := light_color * (hit.material.specular * spec_strength * shadow_factor)
        color + specular
      else color) color0
  let color2 :=
    if h : hit.material.reflectivity > 0 ∧ depth > 1 then
      let reflected := Vec3.reflect incident_ray.direction hit.normal
      let reflection_ray := Ray.new (hit.point + hit.normal * EPSILON) reflected
      color1 + ray_color scene reflection_ray (depth - 1) * hit.material.reflectivity
    else color1
  color2.clamp 0 1
termination_by 2 * depth.toNat

end

end Clean

/-! Helper lemmas. -/

theorem Vec3.dot_neg (a b : Vec3) : a.dot (-b) = -(a.dot b) := by
  show a.dot (Vec3.neg b) = -(a.dot b)
  simp only [Vec3.neg, Vec3.dot]
  ring

theorem qclamp_nonneg (x : ℚ) : 0 ≤ qclamp x 0 1 := by
  unfold qclamp
  split
  · exact le_refl 0
  · split
    · norm_num
    · linarith [not_lt.mp (by assumption : ¬ x < 0)]

theorem qclamp_le_one (x : ℚ) : qclamp x 0 1 ≤ 1 := by
  unfold qclamp
  split
  · norm_num
  · split
    · exact le_refl 1
    · linarith [not_lt.mp (by assumption : ¬ x > 1)]

/-- Componentwise membership of a vector in the unit cube `[0,1]^3`. -/
def Vec3.inUnit (v : Vec3) : Prop :=
  0 ≤ v.x ∧ v.x ≤ 1 ∧ 0 ≤ v.y ∧ v.y ≤ 1 ∧ 0 ≤ v.z ∧ v.z ≤ 1

instance (v : Vec3) : Decidable v.inUnit := by
  unfold Vec3.inUnit
  infer_instance

theorem Vec3.clamp01_inUnit (v : Vec3) : (v.clamp 0 1).inUnit := by
  refine ⟨qclamp_nonneg _, qclamp_le_one _, qclamp_nonneg _, qclamp_le_one _,
    qclamp_nonneg _, qclamp_le_one _⟩

/-! Claims. -/

/-- C6: the front-face convention.  `HitRecord::new` stores the flipped
normal whenever the dot product of the ray direction and the geometric
outward normal is non-negative, so every constructed hit record — in
particular every record returned by the scene query and handed to
`calculate_lighting` — has a normal with `dot(ray_direction, normal) ≤ 0`. -/
theorem c6_front_face_convention (point normal : Vec3) (t : ℚ) (ray : Clean.Ray)
    (material : Clean.Material) :
    (0 ≤ ray.direction.dot normal →
      (Clean.HitRecord.new point normal t ray material).normal = -normal) ∧
    ray.direction.dot (Clean.HitRecord.new point normal t ray material).normal ≤ 0 := by
  constructor
  · intro h
    simp [Clean.HitRecord.new, not_lt.mpr h]
  · by_cases h : ray.direction.dot normal < 0
    · simp only [Clean.HitRecord.new, if_pos h]
      exact le_of_lt h
    · simp only [Clean.HitRecord.new, if_neg h, Vec3.dot_neg]
      linarith [not_lt.mp h]

/-- Witness for C6 at a concrete input: direction `(0,0,-1)` against the
geometric normal `(0,0,-1)` (non-negative dot product, so the record flips
it), with the bound from the theorem. -/
theorem c6_front_face_convention_witness :
    (0 ≤ (Clean.Ray.mk ⟨0,0,0⟩ ⟨0,0,-1⟩).direction.dot ⟨0,0,-1⟩ →
      (Clean.HitRecord.new ⟨0,0,0⟩ ⟨0,0,-1⟩ 1 (Clean.Ray.mk ⟨0,0,0⟩ ⟨0,0,-1⟩)
        (Clean.Material.mk Vec3.zero Clean.TextureType.solidColor 0 0 0 Vec3.zero)).normal
        = -(⟨0,0,-1⟩ : Vec3)) ∧
    (Clean.Ray.mk ⟨0,0,0⟩ ⟨0,0,-1⟩).direction.dot
      (Clean.HitRecord.new ⟨0,0,0⟩ ⟨0,0,-1⟩ 1 (Clean.Ray.mk ⟨0,0,0⟩ ⟨0,0,-1⟩)
        (Clean.Material.mk Vec3.zero Clean.TextureType.solidColor 0 0 0 Vec3.zero)).normal ≤ 0 :=
  c6_front_face_convention ⟨0,0,0⟩ ⟨0,0,-1⟩ 1 (Clean.Ray.mk ⟨0,0,0⟩ ⟨0,0,-1⟩)
    (Clean.Material.mk Vec3.zero Clean.TextureType.solidColor 0 0 0 Vec3.zero)

/-- C8: plane intersection error handling.  A ray (anti)parallel to the
plane — `|dot(normal, direction)| < EPSILON` — yields the explicit no-hit
result `none`, never an error; otherwise the single-plane solution `t` is
rejected (again as `none`) exactly when it falls outside the caller's
`[t_min, t_max]` window, and accepted as a front-face hit record inside
it. -/
theorem c8_plane_parallel_and_window (p : Clean.Plane) (ray : Clean.Ray)
    (t_min t_max : ERat) :
    (|p.normal.dot ray.direction| < Clean.EPSILON →
      p.hit ray t_min t_max = none) ∧
    (¬ |p.normal.dot ray.direction| < Clean.EPSILON →
      ((ERat.blt (ERat.fin ((p.point - ray.origin).dot p.normal / p.normal.dot ray.direction)) t_min
          || ERat.blt t_max (ERat.fin ((p.point - ray.origin).dot p.normal / p.normal.dot ray.direction))) = true →
        p.hit ray t_min t_max = none) ∧
      ((ERat.blt (ERat.fin ((p.point - ray.origin).dot p.normal / p.normal.dot ray.direction)) t_min
          || ERat.blt t_max (ERat.fin ((p.point - ray.origin).dot p.normal / p.normal.dot ray.direction))) = false →
        p.hit ray t_min t_max =
          some (Clean.HitRecord.new
            (ray.at ((p.point - ray.origin).dot p.normal / p.normal.dot ray.direction))
            p.normal ((p.point - ray.origin).dot p.normal / p.normal.dot ray.direction)
            ray p.material))) := by
  refine ⟨fun h => ?_, fun h => ⟨fun hw => ?_, fun hw => ?_⟩⟩
  · simp [Clean.Plane.hit, h]
  · simp [Clean.Plane.hit, h, hw]
  · simp [Clean.Plane.hit, h, hw]


/-! Unfolding lemmas for the `Vec3` operator instances, used when
evaluating the model at concrete inputs. -/

theorem Vec3.sub_def (a b : Vec3) : a - b = Vec3.sub a b := rfl

theorem Vec3.add_def (a b : Vec3) : a + b = Vec3.add a b := rfl

theorem Vec3.neg_def (a : Vec3) : -a = Vec3.neg a := rfl

theorem Vec3.smul_def (a : Vec3) (s : ℚ) : a * s = Vec3.scale a s := rfl

theorem Vec3.hmul_def (a b : Vec3) : a * b = Vec3.hadamard a b := rfl

/-- A concrete diffuse gray material of the clean renderer, used by the
concrete instances below. -/
def demo_material : Clean.Material :=
  ⟨⟨7/10, 7/10, 7/10⟩, Clean.TextureType.solidColor, 1/10, 4/5, 0, Vec3.zero⟩

/-- The plane `y = 0` with upward normal. -/
def demo_plane : Clean.Plane := ⟨⟨0, 0, 0⟩, ⟨0, 1, 0⟩, demo_material⟩

/-- A horizontal ray, parallel to `demo_plane`. -/
def demo_ray_parallel : Clean.Ray := ⟨⟨0, 1, 0⟩, ⟨1, 0, 0⟩⟩

/-- A downward ray hitting `demo_plane` at `t = 1`. -/
def demo_ray_down : Clean.Ray := ⟨⟨0, 1, 0⟩, ⟨0, -1, 0⟩⟩

/-- Witness for C8 at concrete inputs: the horizontal ray is parallel to
the plane (dot product 0) and misses; the downward ray solves to `t = 1`,
inside the window `[0.001, +inf)`, and is returned as a hit. -/
theorem c8_plane_parallel_and_window_witness :
    (|demo_plane.normal.dot demo_ray_parallel.direction| < Clean.EPSILON ∧
      demo_plane.hit demo_ray_parallel (ERat.fin Clean.EPSILON) ERat.pinf = none) ∧
    (¬ |demo_plane.normal.dot demo_ray_down.direction| < Clean.EPSILON ∧
      (ERat.blt (ERat.fin ((demo_plane.point - demo_ray_down.origin).dot demo_plane.normal /
          demo_plane.normal.dot demo_ray_down.direction)) (ERat.fin Clean.EPSILON)
        || ERat.blt ERat.pinf (ERat.fin ((demo_plane.point - demo_ray_down.origin).dot demo_plane.normal /
          demo_plane.normal.dot demo_ray_down.direction))) = false ∧
      demo_plane.hit demo_ray_down (ERat.fin Clean.EPSILON) ERat.pinf =
        some (Clean.HitRecord.new
          (demo_ray_down.at ((demo_plane.point - demo_ray_down.origin).dot demo_plane.normal /
            demo_plane.normal.dot demo_ray_down.direction))
          demo_plane.normal
          ((demo_plane.point - demo_ray_down.origin).dot demo_plane.normal /
            demo_plane.normal.dot demo_ray_down.direction)
          demo_ray_down demo_plane.material)) := by
  have h1 : |demo_plane.normal.dot demo_ray_parallel.direction| < Clean.EPSILON := by
    norm_num [demo_plane, demo_ray_parallel, Vec3.dot, Clean.EPSILON]
  have h2 : ¬ |demo_plane.normal.dot demo_ray_down.direction| < Clean.EPSILON := by
    norm_num [demo_plane, demo_ray_down, Vec3.dot, Clean.EPSILON]
  have h3 : (ERat.blt (ERat.fin ((demo_plane.point - demo_ray_down.origin).dot demo_plane.normal /
      demo_plane.normal.dot demo_ray_down.direction)) (ERat.fin Clean.EPSILON)
    || ERat.blt ERat.pinf (ERat.fin ((demo_plane.point - demo_ray_down.origin).dot demo_plane.normal /
      demo_plane.normal.dot demo_ray_down.direction))) = false := by
    norm_num [demo_plane, demo_ray_down, Vec3.dot, Vec3.sub_def, Vec3.sub, ERat.blt, Clean.EPSILON]
  exact ⟨⟨h1, (c8_plane_parallel_and_window demo_plane demo_ray_parallel _ _).1 h1⟩,
    ⟨h2, h3, ((c8_plane_parallel_and_window demo_plane demo_ray_down
      (ERat.fin Clean.EPSILON) ERat.pinf).2 h2).2 h3⟩⟩

/-- C9: checkerboard alternation.  For a checkerboard material, two points
whose floored scaled coordinates differ by exactly one cell along a single
axis get the two alternating colors (the parity of the index sum flips);
two points exactly two cells apart along a single axis get the same
color. -/
theorem c9_checkerboard_alternation (scale : ℚ) (c1 c2 : Vec3) (m : Clean.Material)
    (hm : m.texture = Clean.TextureType.checkerboard scale c1 c2) (p q : Vec3) :
    (((⌊q.x * scale⌋ = ⌊p.x * scale⌋ + 1 ∨ ⌊p.x * scale⌋ = ⌊q.x * scale⌋ + 1) ∧
        ⌊q.y * scale⌋ = ⌊p.y * scale⌋ ∧ ⌊q.z * scale⌋ = ⌊p.z * scale⌋) ∨
      (⌊q.x * scale⌋ = ⌊p.x * scale⌋ ∧
        (⌊q.y * scale⌋ = ⌊p.y * scale⌋ + 1 ∨ ⌊p.y * scale⌋ = ⌊q.y * scale⌋ + 1) ∧
        ⌊q.z * scale⌋ = ⌊p.z * scale⌋) ∨
      (⌊q.x * scale⌋ = ⌊p.x * scale⌋ ∧ ⌊q.y * scale⌋ = ⌊p.y * scale⌋ ∧
        (⌊q.z * scale⌋ = ⌊p.z * scale⌋ + 1 ∨ ⌊p.z * scale⌋ = ⌊q.z * scale⌋ + 1)) →
      ((m.get_color_at_point p = c1 ∧ m.get_color_at_point q = c2) ∨
       (m.get_color_at_point p = c2 ∧ m.get_color_at_point q = c1))) ∧
    (((⌊q.x * scale⌋ = ⌊p.x * scale⌋ + 2 ∨ ⌊p.x * scale⌋ = ⌊q.x * scale⌋ + 2) ∧
        ⌊q.y * scale⌋ = ⌊p.y * scale⌋ ∧ ⌊q.z * scale⌋ = ⌊p.z * scale⌋) ∨
      (⌊q.x * scale⌋ = ⌊p.x * scale⌋ ∧
        (⌊q.y * scale⌋ = ⌊p.y * scale⌋ + 2 ∨ ⌊p.y * scale⌋ = ⌊q.y * scale⌋ + 2) ∧
        ⌊q.z * scale⌋ = ⌊p.z * scale⌋) ∨
      (⌊q.x * scale⌋ = ⌊p.x * scale⌋ ∧ ⌊q.y * scale⌋ = ⌊p.y * scale⌋ ∧
        (⌊q.z * scale⌋ = ⌊p.z * scale⌋ + 2 ∨ ⌊p.z * scale⌋ = ⌊q.z * scale⌋ + 2)) →
      m.get_color_at_point p = m.get_color_at_point q) := by
  simp only [Clean.Material.get_color_at_point, hm]
  constructor
  · intro h
    by_cases hp : (⌊p.x * scale⌋ + ⌊p.y * scale⌋ + ⌊p.z * scale⌋) % 2 = 0
    · have hq : ¬ (⌊q.x * scale⌋ + ⌊q.y * scale⌋ + ⌊q.z * scale⌋) % 2 = 0 := by omega
      simp [hp, hq]
    · have hq : (⌊q.x * scale⌋ + ⌊q.y * scale⌋ + ⌊q.z * scale⌋) % 2 = 0 := by omega
      simp [hp, hq]
  · intro h
    by_cases hp : (⌊p.x * scale⌋ + ⌊p.y * scale⌋ + ⌊p.z * scale⌋) % 2 = 0
    · have hq : (⌊q.x * scale⌋ + ⌊q.y * scale⌋ + ⌊q.z * scale⌋) % 2 = 0 := by omega
      simp [hp, hq]
    · have hq : ¬ (⌊q.x * scale⌋ + ⌊q.y * scale⌋ + ⌊q.z * scale⌋) % 2 = 0 := by omega
      simp [hp, hq]

/-- A unit-scale red/blue checkerboard material. -/
def demo_checker : Clean.Material :=
  ⟨Vec3.zero, Clean.TextureType.checkerboard 1 ⟨1, 0, 0⟩ ⟨0, 0, 1⟩, 0, 0, 0, Vec3.zero⟩

/-- Witness for C9: at scale 1, the points `(0.5, 0.5, 0.5)` and
`(1.5, 0.5, 0.5)` are one cell apart along x and get the two alternating
colors; `(0.5, 0.5, 0.5)` and `(2.5, 0.5, 0.5)` are two cells apart and the
theorem yields the same color. -/
theorem c9_checkerboard_alternation_witness :
    (((demo_checker.get_color_at_point ⟨1/2, 1/2, 1/2⟩ = ⟨1, 0, 0⟩ ∧
       demo_checker.get_color_at_point ⟨3/2, 1/2, 1/2⟩ = ⟨0, 0, 1⟩) ∨
      (demo_checker.get_color_at_point ⟨1/2, 1/2, 1/2⟩ = ⟨0, 0, 1⟩ ∧
       demo_checker.get_color_at_point ⟨3/2, 1/2, 1/2⟩ = ⟨1, 0, 0⟩))) ∧
    demo_checker.get_color_at_point ⟨1/2, 1/2, 1/2⟩ =
      demo_checker.get_color_at_point ⟨5/2, 1/2, 1/2⟩ := by
  have hfloor1 : (⌊((3/2 : ℚ)) * 1⌋ : ℤ) = ⌊((1/2 : ℚ)) * 1⌋ + 1 := by norm_num
  have hfloor2 : (⌊((5/2 : ℚ)) * 1⌋ : ℤ) = ⌊((1/2 : ℚ)) * 1⌋ + 2 := by norm_num
  constructor
  · exact (c9_checkerboard_alternation 1 ⟨1, 0, 0⟩ ⟨0, 0, 1⟩ demo_checker rfl
      ⟨1/2, 1/2, 1/2⟩ ⟨3/2, 1/2, 1/2⟩).1 (Or.inl ⟨Or.inl hfloor1, rfl, rfl⟩)
  · exact (c9_checkerboard_alternation 1 ⟨1, 0, 0⟩ ⟨0, 0, 1⟩ demo_checker rfl
      ⟨1/2, 1/2, 1/2⟩ ⟨5/2, 1/2, 1/2⟩).2 (Or.inl ⟨Or.inl hfloor2, rfl, rfl⟩)

/-- C10: shading output clamped per bounce.  `calculate_lighting` clamps
the accumulated color componentwise to `[0, 1]` before returning, for every
scene, hit, ray and depth; consequently every color `ray_color` returns for
a ray whose scene query produces a hit lies in `[0, 1]` per channel (at
every recursion depth, not only at final pixel conversion). -/
theorem c10_lighting_clamped :
    (∀ (scene : Clean.Scene) (hit : Clean.HitRecord) (ray : Clean.Ray) (depth : ℤ),
      (Clean.calculate_lighting scene hit ray depth).inUnit) ∧
    (∀ (scene : Clean.Scene) (ray : Clean.Ray) (depth : ℤ),
      (Clean.Scene.hit scene ray (ERat.fin Clean.EPSILON) ERat.pinf).isSome = true →
      (Clean.ray_color scene ray depth).inUnit) := by
  have hcl : ∀ (scene : Clean.Scene) (hit : Clean.HitRecord) (ray : Clean.Ray) (depth : ℤ),
      (Clean.calculate_lighting scene hit ray depth).inUnit := by
    intro scene hit ray depth
    rw [Clean.calculate_lighting]
    exact Vec3.clamp01_inUnit _
  refine ⟨hcl, fun scene ray depth hsome => ?_⟩
  rw [Clean.ray_color]
  split
  · exact ⟨by norm_num [Vec3.zero], by norm_num [Vec3.zero], by norm_num [Vec3.zero],
      by norm_num [Vec3.zero], by norm_num [Vec3.zero], by norm_num [Vec3.zero]⟩
  · cases hhit : Clean.Scene.hit scene ray (ERat.fin Clean.EPSILON) ERat.pinf with
    | some hit_record => simpa [hhit] using hcl scene hit_record ray depth
    | none =>
      rw [hhit] at hsome
      simp at hsome

/-- A one-plane scene used by concrete instances. -/
def demo_scene : Clean.Scene :=
  ⟨[Clean.Object.plane demo_plane], [], ⟨1/10, 1/10, 1/5⟩, ⟨1/10, 1/10, 1/10⟩⟩

/-- Witness for C10: the downward ray hits the plane of `demo_scene`, and
the color `ray_color` returns for it at depth 5 is inside `[0,1]^3`. -/
theorem c10_lighting_clamped_witness :
    (Clean.Scene.hit demo_scene demo_ray_down (ERat.fin Clean.EPSILON) ERat.pinf).isSome = true ∧
    (Clean.ray_color demo_scene demo_ray_down 5).inUnit := by
  have hsome : (Clean.Scene.hit demo_scene demo_ray_down
      (ERat.fin Clean.EPSILON) ERat.pinf).isSome = true := by
    norm_num [demo_scene, Clean.Scene.hit, Clean.HittableList.hit, Clean.Object.hit,
      Clean.Plane.hit, demo_plane, demo_ray_down, Vec3.dot, Vec3.sub_def, Vec3.sub,
      Clean.EPSILON, ERat.blt]
  exact ⟨hsome, (c10_lighting_clamped).2 demo_scene demo_ray_down 5 hsome⟩

/-- C3 (amended): depth-guard behavior.  In the interactive renderer,
`cast_ray` at any depth greater than the fixed cap 3 returns the procedural
sky for the ray's direction immediately — the result is independent of the
object list and light list, so the scene is never queried and no recursive
call is made.  In the clean renderer, `ray_color` with its countdown depth
exhausted (`depth ≤ 0`) returns black `(0,0,0)`, not the scene's background
color, again independently of the scene's contents. -/
theorem c3_depth_guard :
    (∀ (objects : List RT.Cube) (lights : List RT.Light) (o d : Vec3) (depth : ℕ),
      3 < depth → RT.cast_ray objects lights o d depth = RT.procedural_sky d) ∧
    (∀ (scene : Clean.Scene) (ray : Clean.Ray) (depth : ℤ),
      depth ≤ 0 → Clean.ray_color scene ray depth = Vec3.zero) := by
  constructor
  · intro objects lights o d depth h
    unfold RT.cast_ray
    have h0 : 4 - depth = 0 := by omega
    rw [h0]
    rfl
  · intro scene ray depth h
    rw [Clean.ray_color]
    simp [h]

/-- Witness for C3: at depth 4 the interactive renderer returns the sky for
the straight-down ray over the empty scene, and the clean renderer at
exhausted depth 0 returns black. -/
theorem c3_depth_guard_witness :
    RT.cast_ray [] [] ⟨0, 0, 0⟩ ⟨0, 0, -1⟩ 4 = RT.procedural_sky ⟨0, 0, -1⟩ ∧
    Clean.ray_color demo_scene demo_ray_down 0 = Vec3.zero :=
  ⟨c3_depth_guard.1 [] [] ⟨0, 0, 0⟩ ⟨0, 0, -1⟩ 4 (by norm_num),
   c3_depth_guard.2 demo_scene demo_ray_down 0 (le_refl 0)⟩

/-- Counterexample for C3 as frozen: the claim requires the trace function
at exhausted depth to return the background color for the ray's direction,
but the clean renderer's `ray_color` at depth 0 returns black `(0,0,0)`
while the scene's background function returns `(0.1, 0.1, 0.2)`. -/
theorem c3_depth_guard_counterexample :
    Clean.ray_color demo_scene demo_ray_down 0 ≠
      Clean.Scene.get_background_color demo_scene demo_ray_down := by
  rw [Clean.ray_color]
  norm_num [Clean.Scene.get_background_color, demo_scene, Vec3.zero]

/-- C7: miss yields the background.  In the interactive renderer, a ray
whose nearest-hit scan finds no intersection gets exactly the procedural
sky for its direction, for every light list and every depth.  In the clean
renderer, a ray whose scene query is `none` gets exactly the scene's
background function value at every depth at which `ray_color` is actually
invoked (the initial call uses `max_depth = 5` and every recursive call has
`depth - 1 ≥ 1`, so invoked depths satisfy `1 ≤ depth`). -/
theorem c7_miss_returns_background :
    (∀ (objects : List RT.Cube) (lights : List RT.Light) (o d : Vec3) (depth : ℕ),
      (RT.nearest_intersect objects o d).is_intersecting = false →
      RT.cast_ray objects lights o d depth = RT.procedural_sky d) ∧
    (∀ (scene : Clean.Scene) (ray : Clean.Ray) (depth : ℤ),
      Clean.Scene.hit scene ray (ERat.fin Clean.EPSILON) ERat.pinf = none →
      1 ≤ depth →
      Clean.ray_color scene ray depth = Clean.Scene.get_background_color scene ray) := by
  constructor
  · intro objects lights o d depth hmiss
    by_cases h : 3 < depth
    · unfold RT.cast_ray
      have h0 : 4 - depth = 0 := by omega
      rw [h0]
      rfl
    · rw [RT.cast_ray_succ_fuel objects lights o d depth h]
      simp [RT.cast_ray_go, h, hmiss]
  · intro scene ray depth hmiss hdep
    rw [Clean.ray_color]
    have h0 : ¬ depth ≤ 0 := by omega
    simp [h0, hmiss]

/-- Witness for C7: over scenes with no primitives, both renderers return
their backgrounds — the interactive renderer the sky for the straight-down
direction at depth 0, the clean renderer the stored background color at
depth 5. -/
theorem c7_miss_returns_background_witness :
    ((RT.nearest_intersect [] ⟨0, 0, 0⟩ ⟨0, 0, -1⟩).is_intersecting = false ∧
      RT.cast_ray [] [] ⟨0, 0, 0⟩ ⟨0, 0, -1⟩ 0 = RT.procedural_sky ⟨0, 0, -1⟩) ∧
    (Clean.Scene.hit ⟨[], [], ⟨1/10, 1/10, 1/5⟩, ⟨1/10, 1/10, 1/10⟩⟩ demo_ray_down
        (ERat.fin Clean.EPSILON) ERat.pinf = none ∧
      Clean.ray_color ⟨[], [], ⟨1/10, 1/10, 1/5⟩, ⟨1/10, 1/10, 1/10⟩⟩ demo_ray_down 5 =
        Clean.Scene.get_background_color ⟨[], [], ⟨1/10, 1/10, 1/5⟩, ⟨1/10, 1/10, 1/10⟩⟩
          demo_ray_down) := by
  refine ⟨⟨rfl, ?_⟩, ⟨rfl, ?_⟩⟩
  · exact c7_miss_returns_background.1 [] [] ⟨0, 0, 0⟩ ⟨0, 0, -1⟩ 0 rfl
  · exact c7_miss_returns_background.2 ⟨[], [], ⟨1/10, 1/10, 1/5⟩, ⟨1/10, 1/10, 1/10⟩⟩
      demo_ray_down 5 rfl (by norm_num)

/-- C1: the energy-redistribution blend.  For every ray hit processed by
`cast_ray` (depth within the cap, nearest-hit scan successful), the
returned color is exactly
`local_term * (1 - reflective - transmissive) + reflection_color * reflective + refraction_color * transmissive`,
where `local_term` is the light-accumulated diffuse-plus-specular Phong
term weighted by the material's diffuse and specular energy coefficients,
and `reflection_color`/`refraction_color` are the recursive contributions —
a blend that down-weights the local term by the energy handed to reflection
and refraction, not an additive sum. -/
theorem c1_energy_split (objects : List RT.Cube) (lights : List RT.Light)
    (o d : Vec3) (depth : ℕ) (h : ¬ 3 < depth)
    (hhit : (RT.nearest_intersect objects o d).is_intersecting = true) :
    RT.cast_ray objects lights o d depth =
      RT.local_term objects lights (RT.nearest_intersect objects o d) o *
        (1 - (RT.nearest_intersect objects o d).material.albedo2
           - (RT.nearest_intersect objects o d).material.albedo3) +
      RT.reflection_color objects lights (RT.nearest_intersect objects o d) d depth *
        (RT.nearest_intersect objects o d).material.albedo2 +
      RT.refraction_color objects lights (RT.nearest_intersect objects o d) d depth *
        (RT.nearest_intersect objects o d).material.albedo3 := by
  rw [RT.cast_ray_succ_fuel objects lights o d depth h]
  simp only [RT.cast_ray_go, if_neg h, hhit, Bool.not_true, Bool.false_eq_true, if_false,
    RT.local_term, RT.reflection_color, RT.refraction_color]
  unfold RT.cast_ray
  rfl

/-- The stone material of the interactive scene: almost entirely diffuse. -/
def demo_stone : RT.Material := ⟨⟨1/2, 1/2, 1/2⟩, 3, 19/20, 1/20, 0, 0, 0⟩

/-- A stone cube at the origin with half side `0.25`. -/
def demo_cube : RT.Cube := ⟨⟨0, 0, 0⟩, 1/4, demo_stone⟩

/-- Witness for C1: a ray from `(0,0,5)` straight down the z axis hits
`demo_cube` (entry time `t = 19/4`), and the theorem's decomposition of the
returned color holds there at depth 0. -/
theorem c1_energy_split_witness :
    (¬ 3 < 0) ∧
    (RT.nearest_intersect [demo_cube] ⟨0, 0, 5⟩ ⟨0, 0, -1⟩).is_intersecting = true ∧
    RT.cast_ray [demo_cube] [] ⟨0, 0, 5⟩ ⟨0, 0, -1⟩ 0 =
      RT.local_term [demo_cube] [] (RT.nearest_intersect [demo_cube] ⟨0, 0, 5⟩ ⟨0, 0, -1⟩) ⟨0, 0, 5⟩ *
        (1 - (RT.nearest_intersect [demo_cube] ⟨0, 0, 5⟩ ⟨0, 0, -1⟩).material.albedo2
           - (RT.nearest_intersect [demo_cube] ⟨0, 0, 5⟩ ⟨0, 0, -1⟩).material.albedo3) +
      RT.reflection_color [demo_cube] [] (RT.nearest_intersect [demo_cube] ⟨0, 0, 5⟩ ⟨0, 0, -1⟩) ⟨0, 0, -1⟩ 0 *
        (RT.nearest_intersect [demo_cube] ⟨0, 0, 5⟩ ⟨0, 0, -1⟩).material.albedo2 +
      RT.refraction_color [demo_cube] [] (RT.nearest_intersect [demo_cube] ⟨0, 0, 5⟩ ⟨0, 0, -1⟩) ⟨0, 0, -1⟩ 0 *
        (RT.nearest_intersect [demo_cube] ⟨0, 0, 5⟩ ⟨0, 0, -1⟩).material.albedo3 := by
  have hhit : (RT.nearest_intersect [demo_cube] ⟨0, 0, 5⟩ ⟨0, 0, -1⟩).is_intersecting = true := by
    norm_num [RT.nearest_intersect, RT.scan_step, List.foldl, RT.Cube.ray_intersect,
      RT.cube_tmin, RT.cube_tmax, RT.cube_t, RT.slab_entry, RT.slab_exit,
      ERat.emin, ERat.emax, ERat.blt, RT.Intersect.empty, demo_cube, demo_stone]
  exact ⟨by norm_num, hhit,
    c1_energy_split [demo_cube] [] ⟨0, 0, 5⟩ ⟨0, 0, -1⟩ 0 (by norm_num) hhit⟩

/-- `refract` returns `None` exactly on a negative Snell discriminant. -/
theorem refract_eq_none_of_snell_k_neg (incident normal : Vec3) (refractive_index : ℚ)
    (h : RT.snell_k incident normal refractive_index < 0) :
    RT.refract incident normal refractive_index = none := by
  unfold RT.snell_k at h
  unfold RT.refract
  simp only at h ⊢
  rw [if_pos h]

/-- C2: total internal reflection.  For any hit record with positive
transmissive coefficient whose Snell discriminant
`k = 1 - eta^2 * (1 - cos^2)` is negative, the refraction contribution of
`cast_ray` is exactly the result of an explicit reflection call: the
recursive trace of `reflect(incident_direction, normal)` (normalized) from
the bias-offset origin at `depth + 1` — the identical formula and recursive
call used by the reflection step, produced as a normal branch outcome, not
an error. -/
theorem c2_total_internal_reflection (objects : List RT.Cube) (lights : List RT.Light)
    (intersect : RT.Intersect) (d : Vec3) (depth : ℕ)
    (h1 : intersect.material.albedo3 > 0)
    (h2 : RT.snell_k d intersect.normal intersect.material.refractive_index < 0) :
    RT.refraction_color objects lights intersect d depth =
      RT.cast_ray objects lights
        (RT.offset_origin intersect ((RT.reflect d intersect.normal).normalize))
        ((RT.reflect d intersect.normal).normalize) (depth + 1) := by
  unfold RT.refraction_color
  rw [if_pos h1, refract_eq_none_of_snell_k_neg d intersect.normal
    intersect.material.refractive_index h2]

/-- A glass-like transmissive material with refractive index 1.5. -/
def demo_glass : RT.Material := ⟨⟨1, 4/5, 2/5⟩, 10, 0, 1/10, 0, 9/10, 3/2⟩

/-- A hit record on the inside of a glass cube's `z = 1` face: the exit
point of the ray from `(0, 0, 0.9)` with direction `(4/5, 0, 3/5)`, whose
incidence cosine `3/5` is beyond the critical angle for index 1.5. -/
def demo_tir_hit : RT.Intersect :=
  ⟨true, 1/6, ⟨2/15, 0, 1⟩, ⟨0, 0, 1⟩, demo_glass, 0, 0⟩

/-- Witness for C2: at the concrete hit `demo_tir_hit` the transmissive
coefficient is `0.9 > 0` and the Snell discriminant is
`1 - 2.25 * (1 - 0.36) = -0.44 < 0`, so the theorem equates the refraction
contribution with the explicit reflection call. -/
theorem c2_total_internal_reflection_witness :
    demo_tir_hit.material.albedo3 > 0 ∧
    RT.snell_k ⟨4/5, 0, 3/5⟩ demo_tir_hit.normal demo_tir_hit.material.refractive_index < 0 ∧
    RT.refraction_color [demo_cube] [] demo_tir_hit ⟨4/5, 0, 3/5⟩ 0 =
      RT.cast_ray [demo_cube] []
        (RT.offset_origin demo_tir_hit ((RT.reflect ⟨4/5, 0, 3/5⟩ demo_tir_hit.normal).normalize))
        ((RT.reflect ⟨4/5, 0, 3/5⟩ demo_tir_hit.normal).normalize) 1 := by
  have h1 : demo_tir_hit.material.albedo3 > 0 := by norm_num [demo_tir_hit, demo_glass]
  have h2 : RT.snell_k ⟨4/5, 0, 3/5⟩ demo_tir_hit.normal
      demo_tir_hit.material.refractive_index < 0 := by
    norm_num [RT.snell_k, demo_tir_hit, demo_glass, Vec3.dot]
  exact ⟨h1, h2, c2_total_internal_reflection [demo_cube] [] demo_tir_hit ⟨4/5, 0, 3/5⟩ 0 h1 h2⟩

/-- If the running minimum of exits is `+inf`, both operands are. -/
theorem ERat.emin_eq_pinf {a b : ERat} (h : ERat.emin a b = ERat.pinf) :
    a = ERat.pinf ∧ b = ERat.pinf := by
  unfold ERat.emin at h
  split at h
  · rename_i hc
    subst h
    cases b <;> simp_all [ERat.blt]
  · rename_i hc
    subst h
    cases a <;> simp_all [ERat.blt]

/-- A slab exit along an axis with non-zero direction component is finite. -/
theorem RT.slab_exit_ne_pinf (lo hi o dc : ℚ) (h : dc ≠ 0) :
    RT.slab_exit lo hi o dc ≠ ERat.pinf := by
  unfold RT.slab_exit
  rw [if_neg h]
  intro hcontra
  exact ERat.noConfusion hcontra

/-- With at least one non-zero direction component, the running exit time
of the slab test is never `+inf`. -/
theorem RT.cube_tmax_ne_pinf (c : RT.Cube) (o d : Vec3)
    (hd : ¬ (d.x = 0 ∧ d.y = 0 ∧ d.z = 0)) :
    RT.cube_tmax c o d ≠ ERat.pinf := by
  intro hcontra
  unfold RT.cube_tmax at hcontra
  obtain ⟨hxy, hz⟩ := ERat.emin_eq_pinf hcontra
  obtain ⟨hx, hy⟩ := ERat.emin_eq_pinf hxy
  by_cases hdx : d.x = 0
  · by_cases hdy : d.y = 0
    · by_cases hdz : d.z = 0
      · exact hd ⟨hdx, hdy, hdz⟩
      · exact RT.slab_exit_ne_pinf _ _ _ _ hdz hz
    · exact RT.slab_exit_ne_pinf _ _ _ _ hdy hy
  · exact RT.slab_exit_ne_pinf _ _ _ _ hdx hx

/-- `blt x pinf` is false only at `pinf` itself. -/
theorem ERat.eq_pinf_of_blt_pinf_eq_false {a : ERat} (h : ERat.blt a ERat.pinf = false) :
    a = ERat.pinf := by
  cases a <;> simp_all [ERat.blt]

/-- C4: the cube slab test.  For every box and every ray with a non-zero
direction (the data-model invariant for directions), `Cube::ray_intersect`
reports a miss exactly when the running maximum of per-axis entry times
`t_min` exceeds the running minimum of per-axis exit times `t_max`, or
`t_max` is negative, or the chosen final time (`t_min` if positive,
else `t_max` — the camera-inside-box case) is non-positive; and on a hit
the reported distance is exactly that chosen final time. -/
theorem c4_cube_slab_test (c : RT.Cube) (o d : Vec3)
    (hd : ¬ (d.x = 0 ∧ d.y = 0 ∧ d.z = 0)) :
    ((RT.Cube.ray_intersect c o d).is_intersecting = false ↔
      (ERat.blt (RT.cube_tmax c o d) (RT.cube_tmin c o d) = true ∨
       ERat.blt (RT.cube_tmax c o d) (ERat.fin 0) = true ∨
       ERat.blt (ERat.fin 0) (RT.cube_t c o d) = false)) ∧
    ((RT.Cube.ray_intersect c o d).is_intersecting = true →
      ERat.fin (RT.Cube.ray_intersect c o d).distance = RT.cube_t c o d) := by
  by_cases hg : (ERat.blt (RT.cube_tmax c o d) (ERat.fin 0)
      || ERat.blt (RT.cube_tmax c o d) (RT.cube_tmin c o d)) = true
  · have hres : RT.Cube.ray_intersect c o d = RT.Intersect.empty := by
      unfold RT.Cube.ray_intersect
      rw [if_pos hg]
    rw [hres]
    rcases Bool.or_eq_true_iff.mp hg with h | h
    · exact ⟨iff_of_true rfl (Or.inr (Or.inl h)),
        fun hcontra => by simp [RT.Intersect.empty] at hcontra⟩
    · exact ⟨iff_of_true rfl (Or.inl h),
        fun hcontra => by simp [RT.Intersect.empty] at hcontra⟩
  · have hA : ERat.blt (RT.cube_tmax c o d) (ERat.fin 0) = false := by
      cases h2 : ERat.blt (RT.cube_tmax c o d) (ERat.fin 0)
      · rfl
      · exact absurd (show (ERat.blt (RT.cube_tmax c o d) (ERat.fin 0)
          || ERat.blt (RT.cube_tmax c o d) (RT.cube_tmin c o d)) = true by rw [h2]; rfl) hg
    have hB : ERat.blt (RT.cube_tmax c o d) (RT.cube_tmin c o d) = false := by
      cases h2 : ERat.blt (RT.cube_tmax c o d) (RT.cube_tmin c o d)
      · rfl
      · exact absurd (show (ERat.blt (RT.cube_tmax c o d) (ERat.fin 0)
          || ERat.blt (RT.cube_tmax c o d) (RT.cube_tmin c o d)) = true by simp [hA, h2]) hg
    have hor : (ERat.blt (RT.cube_tmax c o d) (ERat.fin 0)
        || ERat.blt (RT.cube_tmax c o d) (RT.cube_tmin c o d)) = false := by
      simp [hA, hB]
    by_cases hb : ERat.blt (ERat.fin 0) (RT.cube_t c o d) = true
    · have hne := RT.cube_tmax_ne_pinf c o d hd
      cases ht : RT.cube_t c o d with
      | ninf =>
        rw [ht] at hb
        exact absurd hb (by simp [ERat.blt])
      | pinf =>
        exfalso
        unfold RT.cube_t at ht
        by_cases hc : ERat.blt (ERat.fin 0) (RT.cube_tmin c o d) = true
        · rw [if_pos hc] at ht
          rw [ht] at hB
          exact hne (ERat.eq_pinf_of_blt_pinf_eq_false hB)
        · rw [Bool.not_eq_true] at hc
          rw [if_neg (by simp [hc])] at ht
          exact hne ht
      | fin tq =>
        rw [ht] at hb
        have hres : RT.Cube.ray_intersect c o d =
            ⟨true, tq, o + d * tq, c.calculate_normal (o + d * tq), c.material,
              (c.calculate_uv (o + d * tq) (c.calculate_normal (o + d * tq))).1,
              (c.calculate_uv (o + d * tq) (c.calculate_normal (o + d * tq))).2⟩ := by
          unfold RT.Cube.ray_intersect
          simp only [hor, Bool.false_eq_true, if_false, ht, hb, Bool.not_true]
        rw [hres]
        refine ⟨iff_of_false (by simp) ?_, fun _ => rfl⟩
        intro hdisj
        rcases hdisj with h | h | h
        · rw [hB] at h
          exact absurd h (by simp)
        · rw [hA] at h
          exact absurd h (by simp)
        · rw [hb] at h
          exact absurd h (by simp)
    · rw [Bool.not_eq_true] at hb
      have hres : RT.Cube.ray_intersect c o d = RT.Intersect.empty := by
        unfold RT.Cube.ray_intersect
        simp only [hor, Bool.false_eq_true, if_false, hb, Bool.not_false, if_true]
      rw [hres]
      exact ⟨iff_of_true rfl (Or.inr (Or.inr hb)),
        fun hcontra => by simp [RT.Intersect.empty] at hcontra⟩

/-- Witness for C4: the straight-down ray from `(0,0,5)` against
`demo_cube` has a non-zero direction, and the theorem's miss/hit
characterization holds for it. -/
theorem c4_cube_slab_test_witness :
    (¬ (((⟨0, 0, -1⟩ : Vec3)).x = 0 ∧ ((⟨0, 0, -1⟩ : Vec3)).y = 0 ∧ ((⟨0, 0, -1⟩ : Vec3)).z = 0)) ∧
    ((RT.Cube.ray_intersect demo_cube ⟨0, 0, 5⟩ ⟨0, 0, -1⟩).is_intersecting = false ↔
      (ERat.blt (RT.cube_tmax demo_cube ⟨0, 0, 5⟩ ⟨0, 0, -1⟩)
          (RT.cube_tmin demo_cube ⟨0, 0, 5⟩ ⟨0, 0, -1⟩) = true ∨
       ERat.blt (RT.cube_tmax demo_cube ⟨0, 0, 5⟩ ⟨0, 0, -1⟩) (ERat.fin 0) = true ∨
       ERat.blt (ERat.fin 0) (RT.cube_t demo_cube ⟨0, 0, 5⟩ ⟨0, 0, -1⟩) = false)) ∧
    ((RT.Cube.ray_intersect demo_cube ⟨0, 0, 5⟩ ⟨0, 0, -1⟩).is_intersecting = true →
      ERat.fin (RT.Cube.ray_intersect demo_cube ⟨0, 0, 5⟩ ⟨0, 0, -1⟩).distance =
        RT.cube_t demo_cube ⟨0, 0, 5⟩ ⟨0, 0, -1⟩) := by
  have hd : ¬ (((⟨0, 0, -1⟩ : Vec3)).x = 0 ∧ ((⟨0, 0, -1⟩ : Vec3)).y = 0 ∧
      ((⟨0, 0, -1⟩ : Vec3)).z = 0) := by norm_num
  have h := c4_cube_slab_test demo_cube ⟨0, 0, 5⟩ ⟨0, 0, -1⟩ hd
  exact ⟨hd, h.1, h.2⟩

/-- Non-strict comparison transport for `ERat.blt`. -/
theorem ERat.bleR_trans {a b c : ERat} (h1 : ERat.blt a b = true ∨ a = b)
    (h2 : ERat.blt b c = true ∨ b = c) : ERat.blt a c = true ∨ a = c := by
  rcases h1 with h1 | rfl
  · rcases h2 with h2 | rfl
    · exact Or.inl (ERat.blt_trans h1 h2)
    · exact Or.inl h1
  · exact h2

/-- One scan step never raises the z-buffer. -/
theorem RT.scan_step_le (o d : Vec3) (acc : RT.Intersect × ERat) (c : RT.Cube) :
    ERat.blt (RT.scan_step o d acc c).2 acc.2 = true ∨ (RT.scan_step o d acc c).2 = acc.2 := by
  unfold RT.scan_step
  dsimp only
  split
  · rename_i hcond
    simp only [Bool.and_eq_true] at hcond
    exact Or.inl hcond.2
  · exact Or.inr rfl

/-- The scan's z-buffer only shrinks along the object list. -/
theorem RT.scan_zbuffer_mono (o d : Vec3) (objects : List RT.Cube) :
    ∀ acc : RT.Intersect × ERat,
      ERat.blt (objects.foldl (RT.scan_step o d) acc).2 acc.2 = true ∨
      (objects.foldl (RT.scan_step o d) acc).2 = acc.2 := by
  induction objects with
  | nil => intro acc; exact Or.inr rfl
  | cons c0 cs ih =>
    intro acc
    simp only [List.foldl_cons]
    exact ERat.bleR_trans (ih (RT.scan_step o d acc c0)) (RT.scan_step_le o d acc c0)

/-- Once the scan has accepted a hit, the final result is still a hit. -/
theorem RT.scan_keeps_hit (o d : Vec3) (objects : List RT.Cube) :
    ∀ acc : RT.Intersect × ERat, acc.1.is_intersecting = true →
      (objects.foldl (RT.scan_step o d) acc).1.is_intersecting = true := by
  induction objects with
  | nil => intro acc h; exact h
  | cons c0 cs ih =>
    intro acc h
    simp only [List.foldl_cons]
    apply ih
    unfold RT.scan_step
    dsimp only
    split
    · rename_i hcond
      simp only [Bool.and_eq_true] at hcond
      exact hcond.1
    · exact h

/-- The final pair is either the initial accumulator or an individual
intersection result of one of the scanned objects, with the z-buffer
holding its distance. -/
theorem RT.scan_provenance (o d : Vec3) (objects : List RT.Cube) :
    ∀ acc : RT.Intersect × ERat,
      objects.foldl (RT.scan_step o d) acc = acc ∨
      ∃ c ∈ objects,
        (objects.foldl (RT.scan_step o d) acc).1 = RT.Cube.ray_intersect c o d ∧
        (objects.foldl (RT.scan_step o d) acc).2 =
          ERat.fin (RT.Cube.ray_intersect c o d).distance := by
  induction objects with
  | nil => intro acc; exact Or.inl rfl
  | cons c0 cs ih =>
    intro acc
    simp only [List.foldl_cons]
    rcases ih (RT.scan_step o d acc c0) with h | ⟨c, hmem, h1, h2⟩
    · rw [h]
      unfold RT.scan_step
      dsimp only
      split
      · exact Or.inr ⟨c0, List.mem_cons_self c0 cs, rfl, rfl⟩
      · exact Or.inl rfl
    · exact Or.inr ⟨c, List.mem_cons_of_mem c0 hmem, h1, h2⟩

/-- No scanned object's individual hit is strictly closer than the final
z-buffer. -/
theorem RT.scan_no_closer (o d : Vec3) (objects : List RT.Cube) :
    ∀ acc : RT.Intersect × ERat, ∀ c ∈ objects,
      (RT.Cube.ray_intersect c o d).is_intersecting = true →
      ERat.blt (ERat.fin (RT.Cube.ray_intersect c o d).distance)
        (objects.foldl (RT.scan_step o d) acc).2 = false := by
  induction objects with
  | nil =>
    intro acc c hc
    exact absurd hc (List.not_mem_nil c)
  | cons c0 cs ih =>
    intro acc c hc hhit
    simp only [List.foldl_cons]
    rcases List.mem_cons.mp hc with rfl | hmem
    · have hstep : ERat.blt (ERat.fin (RT.Cube.ray_intersect c o d).distance)
          (RT.scan_step o d acc c).2 = false := by
        unfold RT.scan_step
        dsimp only
        split
        · exact ERat.blt_irrefl _
        · rename_i hcond
          cases hval : ERat.blt (ERat.fin (RT.Cube.ray_intersect c o d).distance) acc.2
          · rfl
          · exact absurd (by simp [hhit, hval]) hcond
      cases hval : ERat.blt (ERat.fin (RT.Cube.ray_intersect c o d).distance)
          (cs.foldl (RT.scan_step o d) (RT.scan_step o d acc c)).2
      · rfl
      · exfalso
        rcases RT.scan_zbuffer_mono o d cs (RT.scan_step o d acc c) with hm | hm
        · have := ERat.blt_trans hval hm
          rw [hstep] at this
          exact Bool.false_ne_true this
        · rw [hm] at hval
          rw [hstep] at hval
          exact Bool.false_ne_true hval
    · exact ih (RT.scan_step o d acc c0) c hmem hhit

/-- The scan from the empty accumulator reports no hit exactly when every
object misses. -/
theorem RT.scan_empty_iff (o d : Vec3) (objects : List RT.Cube) :
    (objects.foldl (RT.scan_step o d) (RT.Intersect.empty, ERat.pinf)).1.is_intersecting = false ↔
    ∀ c ∈ objects, (RT.Cube.ray_intersect c o d).is_intersecting = false := by
  induction objects with
  | nil =>
    simp [RT.Intersect.empty]
  | cons c0 cs ih =>
    simp only [List.foldl_cons]
    by_cases hhit : (RT.Cube.ray_intersect c0 o d).is_intersecting = true
    · have hstep : RT.scan_step o d (RT.Intersect.empty, ERat.pinf) c0 =
          (RT.Cube.ray_intersect c0 o d, ERat.fin (RT.Cube.ray_intersect c0 o d).distance) := by
        unfold RT.scan_step
        dsimp only
        rw [if_pos (by simp [hhit, ERat.blt])]
      rw [hstep]
      have hkeep := RT.scan_keeps_hit o d cs
        (RT.Cube.ray_intersect c0 o d, ERat.fin (RT.Cube.ray_intersect c0 o d).distance) hhit
      refine iff_of_false ?_ ?_
      · rw [hkeep]
        simp
      · intro hall
        rw [hall c0 (List.mem_cons_self c0 cs)] at hhit
        exact Bool.false_ne_true hhit
    · rw [Bool.not_eq_true] at hhit
      have hstep : RT.scan_step o d (RT.Intersect.empty, ERat.pinf) c0 =
          (RT.Intersect.empty, ERat.pinf) := by
        unfold RT.scan_step
        dsimp only
        rw [if_neg (by simp [hhit])]
      rw [hstep, ih]
      constructor
      · intro hall c hc
        rcases List.mem_cons.mp hc with rfl | hmem
        · exact hhit
        · exact hall c hmem
      · intro hall c hc
        exact hall c (List.mem_cons_of_mem c0 hc)

/-- C5 (amended): the interactive renderer's nearest-hit scan.  The
z-buffered linear scan of `cast_ray` (each primitive tested with its full
individual window) returns no hit exactly when every primitive misses, and
on a hit it returns one primitive's individual intersection result whose
distance is minimal over all primitives' individual results.  (The clean
renderer's `HittableList::hit` narrows each subsequent primitive's window
instead and can return a farther box's record clipped to the narrowed
bound when that box contains the ray origin — see the counterexample.) -/
theorem c5_nearest_hit_scan (objects : List RT.Cube) (o d : Vec3) :
    ((RT.nearest_intersect objects o d).is_intersecting = false ↔
      ∀ c ∈ objects, (RT.Cube.ray_intersect c o d).is_intersecting = false) ∧
    ((RT.nearest_intersect objects o d).is_intersecting = true →
      (∃ c ∈ objects, RT.nearest_intersect objects o d = RT.Cube.ray_intersect c o d) ∧
      ∀ c ∈ objects, (RT.Cube.ray_intersect c o d).is_intersecting = true →
        (RT.nearest_intersect objects o d).distance ≤
          (RT.Cube.ray_intersect c o d).distance) := by
  constructor
  · exact RT.scan_empty_iff o d objects
  · intro hr
    rcases RT.scan_provenance o d objects (RT.Intersect.empty, ERat.pinf) with h | ⟨c, hmem, h1, h2⟩
    · exfalso
      unfold RT.nearest_intersect at hr
      rw [h] at hr
      simp [RT.Intersect.empty] at hr
    · constructor
      · exact ⟨c, hmem, h1⟩
      · intro c2 hc2 hhit2
        have hclose := RT.scan_no_closer o d objects (RT.Intersect.empty, ERat.pinf) c2 hc2 hhit2
        rw [h2] at hclose
        have hdist : (RT.nearest_intersect objects o d).distance =
            (RT.Cube.ray_intersect c o d).distance := by
          unfold RT.nearest_intersect
          rw [h1]
        rw [hdist]
        simp only [ERat.blt, decide_eq_false_iff_not, not_lt] at hclose
        exact hclose

/-- Witness for C5: the singleton scene `[demo_cube]` and the straight-down
ray from `(0,0,5)`; the scan reports a hit, it is `demo_cube`'s individual
result (the only one), and its distance `19/4` is minimal. -/
theorem c5_nearest_hit_scan_witness :
    ((RT.nearest_intersect [demo_cube] ⟨0, 0, 5⟩ ⟨0, 0, -1⟩).is_intersecting = false ↔
      ∀ c ∈ [demo_cube], (RT.Cube.ray_intersect c ⟨0, 0, 5⟩ ⟨0, 0, -1⟩).is_intersecting = false) ∧
    ((RT.nearest_intersect [demo_cube] ⟨0, 0, 5⟩ ⟨0, 0, -1⟩).is_intersecting = true →
      (∃ c ∈ [demo_cube],
        RT.nearest_intersect [demo_cube] ⟨0, 0, 5⟩ ⟨0, 0, -1⟩ =
          RT.Cube.ray_intersect c ⟨0, 0, 5⟩ ⟨0, 0, -1⟩) ∧
      ∀ c ∈ [demo_cube], (RT.Cube.ray_intersect c ⟨0, 0, 5⟩ ⟨0, 0, -1⟩).is_intersecting = true →
        (RT.nearest_intersect [demo_cube] ⟨0, 0, 5⟩ ⟨0, 0, -1⟩).distance ≤
          (RT.Cube.ray_intersect c ⟨0, 0, 5⟩ ⟨0, 0, -1⟩).distance) :=
  c5_nearest_hit_scan [demo_cube] ⟨0, 0, 5⟩ ⟨0, 0, -1⟩

/-- A red unit-half-extent box around the origin (the ray origin is inside
it). -/
def demo_box_outer : Clean.Cube :=
  ⟨⟨-1, -1, -1⟩, ⟨1, 1, 1⟩, ⟨⟨1, 0, 0⟩, Clean.TextureType.solidColor, 0, 0, 0, Vec3.zero⟩⟩

/-- A small blue box in front of the ray, inside the red box. -/
def demo_box_front : Clean.Cube :=
  ⟨⟨-1/10, -1/10, -7/10⟩, ⟨1/10, 1/10, -1/2⟩,
    ⟨⟨0, 0, 1⟩, Clean.TextureType.solidColor, 0, 0, 0, Vec3.zero⟩⟩

/-- A ray starting inside `demo_box_outer`, pointed at `demo_box_front`. -/
def demo_ray_inside : Clean.Ray := ⟨⟨0, 0, 0⟩, ⟨0, 0, -1⟩⟩

/-- Counterexample for C5 as frozen, on the clean renderer's
`HittableList::hit` with the scene `[demo_box_front, demo_box_outer]` and
`demo_ray_inside`: the front box's individual hit is at `t = 1/2` and the
outer box's individual hit is at `t = 1`, so the minimal individual hit is
the front box's; yet the scene-level query does not return it — the
narrowed window `t_max = 1/2` makes the enclosing outer box (camera-inside
case, `t = t_max`) produce a record at the narrowed bound that replaces the
front box's, with the outer box's red material. -/
theorem c5_nearest_hit_counterexample :
    (Clean.Object.hit (Clean.Object.cube demo_box_front) demo_ray_inside
        (ERat.fin Clean.EPSILON) ERat.pinf).map Clean.HitRecord.t = some (1/2) ∧
    (Clean.Object.hit (Clean.Object.cube demo_box_outer) demo_ray_inside
        (ERat.fin Clean.EPSILON) ERat.pinf).map Clean.HitRecord.t = some 1 ∧
    (Clean.HittableList.hit [Clean.Object.cube demo_box_front, Clean.Object.cube demo_box_outer]
        demo_ray_inside (ERat.fin Clean.EPSILON) ERat.pinf).map
        (fun h => h.material.color) = some ⟨1, 0, 0⟩ ∧
    Clean.HittableList.hit [Clean.Object.cube demo_box_front, Clean.Object.cube demo_box_outer]
        demo_ray_inside (ERat.fin Clean.EPSILON) ERat.pinf ≠
      Clean.Object.hit (Clean.Object.cube demo_box_front) demo_ray_inside
        (ERat.fin Clean.EPSILON) ERat.pinf := by
  refine ⟨?_, ?_, ?_, ?_⟩ <;>
    norm_num [Clean.HittableList.hit, Clean.Object.hit, Clean.Cube.hit, Clean.axis_step,
      Clean.slab_t0, Clean.slab_t1, Clean.axis_normal_x, Clean.axis_normal_y,
      Clean.axis_normal_z, Clean.HitRecord.new, Clean.Ray.at, ERat.blt, ERat.emin, ERat.emax,
      Clean.EPSILON, demo_box_front, demo_box_outer, demo_ray_inside, Vec3.dot,
      Vec3.add_def, Vec3.add, Vec3.smul_def, Vec3.scale, Vec3.neg_def, Vec3.neg, Vec3.zero,
      List.foldl]
